import Mathlib

/-!
Shallow embedding of the mesh gateway client services of the mininet-web
backend (`backend/app/services/mesh_client.py` and
`backend/app/services/mesh_authority_client.py`), together with theorems
checking the stated behaviour of discovery caching, fallback persistence,
transfer validation, probe fan-out and lifecycle guards.

Conventions of the embedding:
* Python dictionaries are association lists `List (String × α)`; assignment
  `d[k] = v` is `dinsert` (update in place when the key exists, append
  otherwise, matching insertion-order semantics of Python dicts).
* JSON/Python scalar values are `PyValue`; Python `float` is embedded as an
  exact rational (`Rat`), so `int(x)` truncation is `Int.tdiv` on the
  numerator/denominator, exactly Python's truncation toward zero.
* Python `set` objects are embedded as deduplicated `List String`
  (`List.dedup` at every construction site that calls `set(...)`);
  membership sets are compared through `List.toFinset`.
* Wall-clock times (`time.time()`) are abstract `Nat` instants supplied by
  the caller.
* Network I/O is an oracle argument (`HttpResult` / `DiscoveryResponse`);
  every operation additionally returns the number of gateway calls it
  performed, so "no network I/O" is the statement that this count is zero.
* Raised exceptions are `Except.error` values; an operation that catches
  every exception is total in the embedding.
-/

namespace MeshWeb

/-- Python scalar values occurring in request/response dictionaries. -/
inductive PyValue where
  | int (n : Int)
  | float (q : Rat)
  | str (s : String)
  | bool (b : Bool)
  | none
deriving DecidableEq

/-- A Python/JSON dictionary with string keys. -/
abbrev PyDict := List (String × PyValue)

/-- `d.get(k)` on a Python dict (first binding of the key). -/
def dget {α : Type} (d : List (String × α)) (k : String) : Option α :=
  (d.find? (fun kv => kv.1 == k)).map (fun kv => kv.2)

/-- `k in d` on a Python dict. -/
def dmem {α : Type} (d : List (String × α)) (k : String) : Bool :=
  d.any (fun kv => kv.1 == k)

/-- `d[k] = v` on a Python dict: update the binding in place if the key
exists, append otherwise. -/
def dinsert {α : Type} : List (String × α) → String → α → List (String × α)
  | [], k, v => [(k, v)]
  | kv :: rest, k, v =>
      if kv.1 == k then (k, v) :: rest else kv :: dinsert rest k v

/-- The list of values of a Python dict, in insertion order
(`list(d.values())`). -/
def dvalues {α : Type} (d : List (String × α)) : List α :=
  d.map (fun kv => kv.2)

/-- The list of keys of a Python dict, in insertion order. -/
def dkeys {α : Type} (d : List (String × α)) : List String :=
  d.map (fun kv => kv.1)

/-- `{**d, **adds}` / successive `d[k] = v` updates. -/
def dupdate {α : Type} (d : List (String × α)) (adds : List (String × α)) :
    List (String × α) :=
  adds.foldl (fun m kv => dinsert m kv.1 kv.2) d

/-- Exceptions raised by Python `int(...)`. -/
inductive PyExn where
  | valueError
  | typeError
deriving DecidableEq

/-- Python `int(x)` on a scalar: identity on ints, truncation toward zero on
floats, decimal-string parsing (`ValueError` on failure), 0/1 on bools,
`TypeError` on `None`. -/
def pyToInt : PyValue → Except PyExn Int
  | .int n => .ok n
  | .float q => .ok (Int.tdiv q.num (Int.ofNat q.den))
  | .str s =>
      match s.toInt? with
      | some n => .ok n
      | Option.none => .error .valueError
  | .bool b => .ok (if b then 1 else 0)
  | .none => .error .typeError

/-- Python truthiness of a scalar. -/
def pyTruthy : PyValue → Bool
  | .int n => n != 0
  | .float q => q != 0
  | .str s => s != ""
  | .bool b => b
  | .none => false

/-- Character-list version of a leading-substring test. -/
def leadChars : List Char → List Char → Bool
  | [], _ => true
  | _ :: _, [] => false
  | p :: ps, c :: cs => p == c && leadChars ps cs

/-- Python `s.startswith(p)`, computed on the character lists of the two
strings. -/
def pyStartsWith (s p : String) : Bool := leadChars p.data s.data

/-- Python `str(x)` of a scalar (used only to build error messages). -/
def pyToString : PyValue → String
  | .int n => toString n
  | .float q => toString q
  | .str s => s
  | .bool b => if b then ("True") else ("False")
  | .none => ("None")

/-- `AuthorityStatus` enumeration of `app/models/base.py`. -/
inductive AuthorityStatus where
  | online
  | offline
  | syncing
  | unknown
deriving DecidableEq

/-- `AuthorityStatus(s)`: parse the enum from a string; `Option.none` stands
for the `ValueError` the enum constructor raises on any other string. -/
def AuthorityStatus.ofString? (s : String) : Option AuthorityStatus :=
  if s == "online" then some .online
  else if s == "offline" then some .offline
  else if s == "syncing" then some .syncing
  else if s == "unknown" then some .unknown
  else Option.none

/-- `status.value` of the enum. -/
def AuthorityStatus.toStr : AuthorityStatus → String
  | .online => ("online")
  | .offline => ("offline")
  | .syncing => ("syncing")
  | .unknown => ("unknown")

/-- `Position` of `app/models/base.py` (coordinates embedded exactly). -/
structure Position where
  x : Rat
  y : Rat
  z : Rat
deriving DecidableEq

/-- `Address` of `app/models/base.py`. -/
structure Address where
  node_id : String
  ip_address : String
  port : Nat
  node_type : String
deriving DecidableEq

/-- `AuthorityInfo` of `app/models/base.py`, restricted to the fields the
client services ever write or read.  `committee_members` is a Python set,
embedded as a deduplicated list.  `last_heartbeat` (always the wall clock at
construction, never read by the client code) is omitted. -/
structure AuthorityInfo where
  name : String
  address : Address
  position : Position
  status : AuthorityStatus
  shards : List String
  committee_members : List String
  performance_metrics : List (String × Rat)
deriving DecidableEq

/-- A raw authority entry of the gateway's `/authorities` JSON, with every
field optional: a missing field is a `KeyError` at the access site. -/
structure RawPosition where
  x : Option Rat
  y : Option Rat
  z : Option Rat
deriving DecidableEq

/-- Raw authority JSON object (`{name, ip, port, position, status,
committee_members}`). -/
structure RawAuth where
  name : Option String
  ip : Option String
  port : Option Nat
  position : Option RawPosition
  status : Option String
  committee_members : Option (List String)
deriving DecidableEq

/-- The record-parsing body of `discover_mesh_authorities`: build an
`AuthorityInfo` from one raw entry; `Option.none` is the
`KeyError`/`ValueError` path that logs and skips the record. -/
def parse_authority (a : RawAuth) : Option AuthorityInfo :=
  match a.name, a.ip, a.port, a.position, a.status with
  | some n, some ip, some pt, some pos, some st =>
      match pos.x, pos.y, pos.z, AuthorityStatus.ofString? st with
      | some px, some py, some pz, some stv =>
          some { name := n
                 address := { node_id := n, ip_address := ip, port := pt,
                              node_type := ("authority") }
                 position := { x := px, y := py, z := pz }
                 status := stv
                 shards := []
                 committee_members := (a.committee_members.getD []).dedup
                 performance_metrics := [] }
      | _, _, _, _ => Option.none
  | _, _, _, _, _ => Option.none

/-- One record of the fallback discovery file
(`/tmp/mesh_authorities.json`), as written by `_save_discovery_file`. -/
structure DiskAuth where
  name : String
  ip : String
  port : Nat
  position : Position
  status : String
  committee_members : List String
  timestamp : Nat
deriving DecidableEq

/-- Serialization of one authority by `_save_discovery_file`. -/
def saveAuth (now : Nat) (a : AuthorityInfo) : DiskAuth :=
  { name := a.name
    ip := a.address.ip_address
    port := a.address.port
    position := a.position
    status := a.status.toStr
    committee_members := a.committee_members
    timestamp := now }

/-- Deserialization of one authority by `_load_discovery_file`.  The stored
`status` string is ignored: the code constructs
`AuthorityStatus("offline")` with the comment "Assume offline when loading
from file". -/
def loadAuth (d : DiskAuth) : AuthorityInfo :=
  { name := d.name
    address := { node_id := d.name, ip_address := d.ip, port := d.port,
                 node_type := ("authority") }
    position := d.position
    status := .offline
    shards := []
    committee_members := d.committee_members.dedup
    performance_metrics := [] }

/-! ### MeshAuthorityClient (`mesh_authority_client.py`) -/

/-- Exceptions of `mesh_authority_client.py`:
`MeshAuthorityDiscoveryError`, `MeshAuthorityCommunicationError`,
`MeshGatewayError`, each carrying its message. -/
inductive MAError where
  | discovery (msg : String)
  | communication (msg : String)
  | gateway (msg : String)
deriving DecidableEq

/-- `str(e)` of a client exception. -/
def MAError.msg : MAError → String
  | .discovery m => m
  | .communication m => m
  | .gateway m => m

/-- Mutable state of a `MeshAuthorityClient` instance, together with the
content of its fallback discovery file (`Option.none` = file absent or
unreadable).  `http_client` records whether `start()` created the HTTP
client. -/
structure MAState where
  mesh_bridge_url : String
  authorities : List (String × AuthorityInfo)
  discovery_file : Option (List DiskAuth)
  running : Bool
  http_client : Bool
  last_discovery_time : Nat
  discovery_cache_duration : Nat
deriving DecidableEq

/-- `MeshAuthorityClient.__init__`: the constructed-but-not-started state
(the discovery file on disk may hold anything from an earlier run). -/
def MAState.mk0 (url : String) (file : Option (List DiskAuth)) : MAState :=
  { mesh_bridge_url := url
    authorities := []
    discovery_file := file
    running := false
    http_client := false
    last_discovery_time := 0
    discovery_cache_duration := 30 }

/-- Outcome of the gateway `GET /authorities` call. -/
inductive DiscoveryResponse where
  | ok (auths : List RawAuth)
  | httpError (msg : String)
  | badBody (msg : String)
deriving DecidableEq

/-- Result of one HTTP call: the parsed JSON body, or the raised
`httpx.HTTPError` (transport failure or `raise_for_status`). -/
inductive HttpResult (α : Type) where
  | ok (a : α)
  | err (msg : String)
deriving DecidableEq

/-- `MeshAuthorityClient._save_discovery_file`: persist the snapshot to the
fallback file (the embedding has no write failures; the code additionally
swallows them). -/
def MeshAuthorityClient.save_discovery_file (st : MAState)
    (auths : List AuthorityInfo) (now : Nat) : MAState :=
  { st with discovery_file := some (auths.map (saveAuth now)) }

/-- `MeshAuthorityClient._load_discovery_file`: read the fallback file,
rebuild the records (status forced to offline) and store each under its
name in `self.authorities`; `Option.none` is the caught-and-logged failure
path (missing/corrupt file). -/
def MeshAuthorityClient.load_discovery_file (st : MAState) :
    Option (List AuthorityInfo) × MAState :=
  match st.discovery_file with
  | Option.none => (Option.none, st)
  | some data =>
      let auths := data.map loadAuth
      (some auths,
       { st with
         authorities := auths.foldl (fun m a => dinsert m a.name a) st.authorities })

/-- `MeshAuthorityClient.discover_mesh_authorities(st, now, gw)`:
returns (result, post-state, number of gateway calls).
* not started: raise `MeshAuthorityDiscoveryError("Client not started")`;
* gateway `httpx.HTTPError`: re-raise as a discovery error;
* other failure (e.g. invalid JSON body): try the fallback file, raise if
  it yields nothing;
* success: parse each record (skipping malformed ones), store each parsed
  record under its name in `self.authorities`, stamp the cache time, save
  the snapshot to the fallback file, return the snapshot. -/
def MeshAuthorityClient.discover_mesh_authorities (st : MAState) (now : Nat)
    (gw : DiscoveryResponse) :
    Except MAError (List AuthorityInfo) × MAState × Nat :=
  if st.http_client = false then
    (.error (.discovery ("Client not started")), st, 0)
  else
    match gw with
    | .httpError m =>
        (.error (.discovery (("HTTP error: ") ++ m)), st, 1)
    | .badBody m =>
        let res := MeshAuthorityClient.load_discovery_file st
        match res.1 with
        | some fallback =>
            if fallback.isEmpty then
              (.error (.discovery (("Discovery failed: ") ++ m)), res.2, 1)
            else
              (.ok fallback, res.2, 1)
        | Option.none =>
            (.error (.discovery (("Discovery failed: ") ++ m)), res.2, 1)
    | .ok raws =>
        let auths := raws.filterMap parse_authority
        let st1 : MAState :=
          { st with
            authorities := auths.foldl (fun m a => dinsert m a.name a) st.authorities
            last_discovery_time := now }
        (.ok auths, MeshAuthorityClient.save_discovery_file st1 auths now, 1)

/-- `MeshAuthorityClient.get_authorities(st, now, gw)`: refresh when the
cache is older than the TTL, swallowing any refresh failure, then return
the values of `self.authorities`. -/
def MeshAuthorityClient.get_authorities (st : MAState) (now : Nat)
    (gw : DiscoveryResponse) :
    Except MAError (List AuthorityInfo) × MAState × Nat :=
  if st.discovery_cache_duration < now - st.last_discovery_time then
    let r := MeshAuthorityClient.discover_mesh_authorities st now gw
    (.ok (dvalues r.2.1.authorities), r.2.1, r.2.2)
  else
    (.ok (dvalues st.authorities), st, 0)

/-- Shared tail of `ping_mesh_authority`: the `POST .../ping` call and the
`success` check on its JSON result. -/
def MeshAuthorityClient.ping_outcome (pr : HttpResult PyDict) :
    Except MAError PyDict :=
  match pr with
  | .ok d =>
      if pyTruthy ((dget d ("success")).getD .none) then .ok d
      else
        .error (.communication (("Ping failed: ") ++
          pyToString ((dget d ("error")).getD (.str ("Unknown error")))))
  | .err m => .error (.communication (("HTTP error: ") ++ m))

/-- `MeshAuthorityClient.ping_mesh_authority(st, name, now, gw, probe)`:
require a started client, re-discover when the authority is unknown (a
discovery failure propagates), then post the ping and check its result. -/
def MeshAuthorityClient.ping_mesh_authority (st : MAState) (name : String)
    (now : Nat) (gw : DiscoveryResponse)
    (probe : PyDict → HttpResult PyDict) :
    Except MAError PyDict × MAState × Nat :=
  if st.http_client = false then
    (.error (.communication ("Client not started")), st, 0)
  else if dmem st.authorities name = false then
    let d := MeshAuthorityClient.discover_mesh_authorities st now gw
    match d.1 with
    | .error e => (.error e, d.2.1, d.2.2)
    | .ok _ =>
        if dmem d.2.1.authorities name = false then
          (.error (.communication (("Authority ") ++ name ++ (" not found"))),
           d.2.1, d.2.2)
        else
          (MeshAuthorityClient.ping_outcome
            (probe [(("timestamp"), PyValue.int (Int.ofNat now))]),
           d.2.1, d.2.2 + 1)
  else
    (MeshAuthorityClient.ping_outcome
      (probe [(("timestamp"), PyValue.int (Int.ofNat now))]),
     st, 1)

/-- The per-authority failure record built by `_safe_ping_authority` and by
the result-collection loop of `ping_all_authorities`. -/
def failDict (name : String) (now : Nat) (msg : String) : PyDict :=
  [ (("success"), PyValue.bool false)
  , (("error"), PyValue.str msg)
  , (("authority"), PyValue.str name)
  , (("timestamp"), PyValue.int (Int.ofNat now)) ]

/-- `MeshAuthorityClient._safe_ping_authority`: ping with every exception
converted into a per-authority failure record. -/
def MeshAuthorityClient.safe_ping_authority (st : MAState) (name : String)
    (now : Nat) (gw : DiscoveryResponse)
    (probe : PyDict → HttpResult PyDict) : PyDict × MAState × Nat :=
  match MeshAuthorityClient.ping_mesh_authority st name now gw probe with
  | (.ok r, st1, n) => (r, st1, n)
  | (.error e, st1, n) => (failDict name now e.msg, st1, n)

/-- The result-collection loop of `ping_all_authorities`: await each ping
task in turn (each one already exception-safe) and store its result under
the authority's name. -/
def MeshAuthorityClient.ping_collect (now : Nat) (gw : DiscoveryResponse)
    (probe : String → PyDict → HttpResult PyDict) :
    List AuthorityInfo → List (String × PyDict) × MAState × Nat →
      List (String × PyDict) × MAState × Nat
  | [], acc => acc
  | a :: rest, acc =>
      let r := MeshAuthorityClient.safe_ping_authority acc.2.1 a.name now gw
        (probe a.name)
      MeshAuthorityClient.ping_collect now gw probe rest
        (dinsert acc.1 a.name r.1, r.2.1, acc.2.2 + r.2.2)

/-- `MeshAuthorityClient.ping_all_authorities(st, now, gw, probe)`: get the
known authorities, ping each through `_safe_ping_authority`, and collect
one result per authority name. -/
def MeshAuthorityClient.ping_all_authorities (st : MAState) (now : Nat)
    (gw : DiscoveryResponse)
    (probe : String → PyDict → HttpResult PyDict) :
    List (String × PyDict) × MAState × Nat :=
  let g := MeshAuthorityClient.get_authorities st now gw
  let auths := match g.1 with | .ok l => l | .error _ => []
  MeshAuthorityClient.ping_collect now gw probe auths ([], g.2.1, g.2.2)

/-- Shared tail of `send_mesh_transfer`: the `POST .../transfer` call with
the metadata-augmented payload and the `success` check on its result. -/
def MeshAuthorityClient.transfer_outcome (name : String) (body : PyDict)
    (now : Nat) (post : PyDict → HttpResult PyDict) :
    Except MAError PyDict :=
  let payload := dupdate body
    [ (("timestamp"), PyValue.int (Int.ofNat now))
    , (("gateway_client"), PyValue.str ("mesh_authority_client"))
    , (("target_authority"), PyValue.str name) ]
  match post payload with
  | .ok r =>
      if pyTruthy ((dget r ("success")).getD .none) then .ok r
      else
        .error (.communication (("Transfer failed: ") ++
          pyToString ((dget r ("error")).getD (.str ("Unknown error")))))
  | .err m => .error (.communication (("HTTP error: ") ++ m))

/-- `MeshAuthorityClient.send_mesh_transfer(st, name, body, now, gw, post)`:
require a started client, re-discover when the authority is unknown, then
forward the transfer through the gateway bridge. -/
def MeshAuthorityClient.send_mesh_transfer (st : MAState) (name : String)
    (body : PyDict) (now : Nat) (gw : DiscoveryResponse)
    (post : PyDict → HttpResult PyDict) :
    Except MAError PyDict × MAState × Nat :=
  if st.http_client = false then
    (.error (.communication ("Client not started")), st, 0)
  else if dmem st.authorities name = false then
    let d := MeshAuthorityClient.discover_mesh_authorities st now gw
    match d.1 with
    | .error e => (.error e, d.2.1, d.2.2)
    | .ok _ =>
        if dmem d.2.1.authorities name = false then
          (.error (.communication (("Authority ") ++ name ++ (" not found"))),
           d.2.1, d.2.2)
        else
          (MeshAuthorityClient.transfer_outcome name body now post,
           d.2.1, d.2.2 + 1)
  else
    (MeshAuthorityClient.transfer_outcome name body now post, st, 1)

/-- `MeshAuthorityClient.get_mesh_gateway_status(st, resp)`: require a
started client, then `GET /health`. -/
def MeshAuthorityClient.get_mesh_gateway_status (st : MAState)
    (resp : HttpResult PyDict) : Except MAError PyDict × Nat :=
  if st.http_client = false then
    (.error (.gateway ("Client not started")), 0)
  else
    match resp with
    | .ok j => (.ok j, 1)
    | .err m => (.error (.gateway (("Gateway unreachable: ") ++ m)), 1)

/-! ### MeshClient (`mesh_client.py`) -/

/-- Authority info as stored by `MeshClient` (a plain dict:
`{name, ip, port, status, position, committee_members}`). -/
structure MCAuth where
  name : String
  ip : String
  port : Nat
  status : String
  position : Position
  committee_members : List String
deriving DecidableEq

/-- Exceptions escaping `MeshClient` methods: `MeshClientError` with its
message, or an uncaught `AttributeError` (calling `.startswith` on a
truthy non-string `token_address`). -/
inductive MCRaise where
  | clientError (msg : String)
  | attributeError
deriving DecidableEq

/-- Mutable state of a `MeshClient` instance. -/
structure MCState where
  gateway_url : String
  http : Bool
  cache : List (String × MCAuth)
deriving DecidableEq

/-- `MeshClient.__init__`: the constructed-but-not-started state. -/
def MCState.mk0 (url : String) : MCState :=
  { gateway_url := url, http := false, cache := [] }

/-- The message of the `MeshClientError` raised by `_require_client`. -/
def MeshClient.notStartedMsg : String :=
  "MeshClient not started – call start() first"

/-- `MeshClient.discover(st, force, gw)`: serve the cache when it is
non-empty and no refresh is forced; otherwise require a started client,
query the gateway and rebuild the cache from scratch, keyed by name. -/
def MeshClient.discover (st : MCState) (force : Bool)
    (gw : HttpResult (List MCAuth)) :
    Except MCRaise (List MCAuth) × MCState × Nat :=
  if !st.cache.isEmpty && !force then
    (.ok (dvalues st.cache), st, 0)
  else if !st.http then
    (.error (.clientError MeshClient.notStartedMsg), st, 0)
  else
    match gw with
    | .err _ =>
        (.error (.clientError ("Gateway unreachable for discovery")), st, 1)
    | .ok auths =>
        let c := auths.foldl (fun m a => dinsert m a.name a) []
        (.ok (dvalues c), { st with cache := c }, 1)

/-- The required transfer fields checked by `send_transfer` and
`send_transfer_to_authority`. -/
def requiredFields : List String :=
  [("sender"), ("recipient"), ("token_address"), ("amount")]

/-- The validation prefix shared verbatim by `MeshClient.send_transfer` and
`MeshClient.send_transfer_to_authority`: required-field check, `int(...)`
conversion plus positivity of `amount`, truthiness and `0x` prefixing of
`token_address`.  `.ok ()` means validation passed and the method proceeds
to the `POST`. -/
def MeshClient.validate_transfer_body (body : PyDict) : Except MCRaise Unit :=
  match requiredFields.find? (fun f => (dget body f).isNone) with
  | some f => .error (.clientError (("Missing required field: ") ++ f))
  | Option.none =>
      match pyToInt ((dget body ("amount")).getD .none) with
      | .error _ => .error (.clientError ("Amount must be a valid integer"))
      | .ok amount =>
          if amount ≤ 0 then .error (.clientError ("Amount must be positive"))
          else
            let tok := (dget body ("token_address")).getD .none
            if !pyTruthy tok then
              .error (.clientError ("Invalid token address format"))
            else
              match tok with
              | .str s =>
                  if !pyStartsWith s ("0x") then
                    .error (.clientError ("Invalid token address format"))
                  else .ok ()
              | _ => .error .attributeError

/-- `MeshClient.send_transfer(st, body, now, post)`: require a started
client, validate the body, then `POST /transfer` with the timestamped
payload (the `SUPPORTED_TOKENS` check only logs a warning and is not
modelled). -/
def MeshClient.send_transfer (st : MCState) (body : PyDict) (now : Nat)
    (post : PyDict → HttpResult PyDict) : Except MCRaise PyDict × Nat :=
  if !st.http then
    (.error (.clientError MeshClient.notStartedMsg), 0)
  else
    match MeshClient.validate_transfer_body body with
    | .error e => (.error e, 0)
    | .ok _ =>
        let payload := dupdate body [(("timestamp"), PyValue.int (Int.ofNat now))]
        match post payload with
        | .ok j => (.ok j, 1)
        | .err m => (.error (.clientError (("Transfer failed: ") ++ m)), 1)

/-- `MeshClient.send_transfer_to_authority(st, authority, body, now, post)`:
identical validation, posting to the per-authority transfer endpoint. -/
def MeshClient.send_transfer_to_authority (st : MCState) (authority : String)
    (body : PyDict) (now : Nat) (post : PyDict → HttpResult PyDict) :
    Except MCRaise PyDict × Nat :=
  if !st.http then
    (.error (.clientError MeshClient.notStartedMsg), 0)
  else
    match MeshClient.validate_transfer_body body with
    | .error e => (.error e, 0)
    | .ok _ =>
        let payload := dupdate body [(("timestamp"), PyValue.int (Int.ofNat now))]
        match post payload with
        | .ok j => (.ok j, 1)
        | .err m =>
            (.error (.clientError
              (("Transfer to authority ") ++ authority ++ (" failed: ") ++ m)), 1)

/-- `MeshClient.send_confirmation(st, authority, body, now, post)`. -/
def MeshClient.send_confirmation (st : MCState) (_authority : String)
    (body : PyDict) (now : Nat) (post : PyDict → HttpResult PyDict) :
    Except MCRaise PyDict × Nat :=
  if !st.http then
    (.error (.clientError MeshClient.notStartedMsg), 0)
  else
    let payload := dupdate body [(("timestamp"), PyValue.int (Int.ofNat now))]
    match post payload with
    | .ok j => (.ok j, 1)
    | .err _ => (.error (.clientError ("Confirmation failed")), 1)

/-- `MeshClient.get_health(st, resp)`: require a started client; a failed
`GET /health` is converted into an "unhealthy" result, not an exception. -/
def MeshClient.get_health (st : MCState) (resp : HttpResult PyDict) :
    Except MCRaise PyDict × Nat :=
  if !st.http then
    (.error (.clientError MeshClient.notStartedMsg), 0)
  else
    match resp with
    | .ok j => (.ok j, 1)
    | .err m =>
        (.ok [ (("status"), PyValue.str ("unhealthy"))
             , (("error"), PyValue.str m) ], 1)

/-- The result of one `MeshClient.ping` POST: the JSON on success, a
`{"success": False, "error": ...}` record on any caught exception. -/
def MeshClient.ping_reply (r : HttpResult PyDict) : PyDict :=
  match r with
  | .ok j => j
  | .err m => [(("success"), PyValue.bool false), (("error"), PyValue.str m)]

/-- `MeshClient.ping(st, authority, now, post)`: require a started client,
then post the ping, converting any failure into a failure record. -/
def MeshClient.ping (st : MCState) (_authority : String) (now : Nat)
    (post : PyDict → HttpResult PyDict) : Except MCRaise PyDict × Nat :=
  if !st.http then
    (.error (.clientError MeshClient.notStartedMsg), 0)
  else
    (.ok (MeshClient.ping_reply
      (post [(("timestamp"), PyValue.int (Int.ofNat now))])), 1)

/-- The `asyncio.gather` of the per-authority pings in
`MeshClient.ping_all`: every ping resolves (an exception from one — only
possible from `_require_client` — propagates). -/
def MeshClient.gather_pings (st : MCState) (now : Nat)
    (probe : String → PyDict → HttpResult PyDict) :
    List MCAuth → Except MCRaise (List (String × PyDict)) × Nat
  | [] => (.ok [], 0)
  | a :: rest =>
      match MeshClient.ping st a.name now (probe a.name) with
      | (.error e, n) => (.error e, n)
      | (.ok r, n) =>
          match MeshClient.gather_pings st now probe rest with
          | (.ok rs, m) => (.ok ((a.name, r) :: rs), n + m)
          | (.error e, m) => (.error e, n + m)

/-- `MeshClient.ping_all(st, now, gw, probe)`: discover (serving the cache
when possible), ping every authority, and collect the results keyed by
authority name. -/
def MeshClient.ping_all (st : MCState) (now : Nat)
    (gw : HttpResult (List MCAuth))
    (probe : String → PyDict → HttpResult PyDict) :
    Except MCRaise (List (String × PyDict)) × MCState × Nat :=
  match MeshClient.discover st false gw with
  | (.error e, st1, n) => (.error e, st1, n)
  | (.ok auths, st1, n) =>
      match MeshClient.gather_pings st1 now probe auths with
      | (.ok rs, m) =>
          (.ok (rs.foldl (fun d kv => dinsert d kv.1 kv.2) []), st1, n + m)
      | (.error e, m) => (.error e, st1, n + m)

/-! ### Circuit breaker (spec-modelled)

The validation script `scripts/test_enhanced_mesh_client.py` imports
`EnhancedMeshAuthorityClient`, `CircuitBreakerConfig`, `RetryConfig`,
`CacheConfig` and `ConnectionPoolConfig` from
`app.services.mesh_authority_client`, but that module in this source tree
contains none of them: the enhanced client is code of this repository that
is not present here.  The circuit breaker below is therefore modelled from
the spec, not translated from source. -/

/-- Circuit breaker state set: `closed`, `open`, `half-open`. -/
inductive BreakerState where
  | closed
  | opened
  | halfOpen
deriving DecidableEq

/-- Modelled from the spec: the `CircuitBreakerConfig` of the enhanced
client (failure threshold and recovery timeout), absent from `src/`. -/
structure CircuitBreakerConfig where
  failure_threshold : Nat
  recovery_timeout : Nat
deriving DecidableEq

/-- Modelled from the spec: the per-gateway circuit breaker state (current
state, consecutive-failure count, time the breaker last opened, whether a
half-open trial is in flight), absent from `src/`. -/
structure CircuitBreaker where
  state : BreakerState
  failure_count : Nat
  opened_at : Nat
  trial_in_flight : Bool
deriving DecidableEq

/-- Outcome of a breaker-guarded call. -/
inductive BreakerOutcome (α : Type) where
  | ok (a : α)
  | circuitOpen
  | failed (msg : String)
deriving DecidableEq

/-- Modelled from the spec: one call through the gateway client guarded by
the circuit breaker of the enhanced client (absent from `src/`).  While
`open` and within the recovery timeout, the call fails fast with
`CircuitOpenError` and performs no network I/O; once the timeout elapses
the breaker admits a single half-open trial; `closed` counts consecutive
failures up to the threshold.  Returns (outcome, new breaker state, number
of network calls). -/
def breakerCall {α : Type} (cfg : CircuitBreakerConfig) (cb : CircuitBreaker)
    (now : Nat) (call : HttpResult α) :
    BreakerOutcome α × CircuitBreaker × Nat :=
  match cb.state with
  | .opened =>
      if now < cb.opened_at + cfg.recovery_timeout then
        (.circuitOpen, cb, 0)
      else
        match call with
        | .ok a =>
            (.ok a, { state := .closed, failure_count := 0,
                      opened_at := cb.opened_at, trial_in_flight := false }, 1)
        | .err m =>
            (.failed m, { state := .opened, failure_count := cb.failure_count,
                          opened_at := now, trial_in_flight := false }, 1)
  | .halfOpen =>
      if cb.trial_in_flight then
        (.circuitOpen, cb, 0)
      else
        match call with
        | .ok a =>
            (.ok a, { state := .closed, failure_count := 0,
                      opened_at := cb.opened_at, trial_in_flight := false }, 1)
        | .err m =>
            (.failed m, { state := .opened, failure_count := cb.failure_count,
                          opened_at := now, trial_in_flight := false }, 1)
  | .closed =>
      match call with
      | .ok a => (.ok a, { cb with failure_count := 0 }, 1)
      | .err m =>
          let fc := cb.failure_count + 1
          if cfg.failure_threshold ≤ fc then
            (.failed m, { state := .opened, failure_count := fc,
                          opened_at := now, trial_in_flight := false }, 1)
          else
            (.failed m, { cb with failure_count := fc }, 1)

/-! ### Dictionary lemmas -/

theorem dmem_cons {α : Type} (kv : String × α) (d : List (String × α))
    (k : String) : dmem (kv :: d) k = ((kv.1 == k) || dmem d k) := by
  unfold dmem
  simp

theorem dinsert_of_not_mem {α : Type} :
    ∀ (d : List (String × α)) (k : String) (v : α), dmem d k = false →
      dinsert d k v = d ++ [(k, v)] := by
  intro d
  induction d with
  | nil => intro k v _; rfl
  | cons kv rest ih =>
      intro k v h
      rw [dmem_cons] at h
      simp only [Bool.or_eq_false_iff] at h
      unfold dinsert
      rw [h.1, ih k v h.2]
      simp

theorem dmem_append {α : Type} (d e : List (String × α)) (k : String) :
    dmem (d ++ e) k = (dmem d k || dmem e k) := by
  unfold dmem
  simp [List.any_append]

theorem dget_cons {α : Type} (kv : String × α) (d : List (String × α))
    (k : String) :
    dget (kv :: d) k = if kv.1 == k then some kv.2 else dget d k := by
  unfold dget
  by_cases h : kv.1 = k
  · simp [List.find?_cons, h]
  · have hb : (kv.1 == k) = false := by simp [h]
    simp [List.find?_cons, hb]

theorem dget_dinsert_self {α : Type} :
    ∀ (d : List (String × α)) (k : String) (v : α),
      dget (dinsert d k v) k = some v := by
  intro d
  induction d with
  | nil => intro k v; simp [dinsert, dget, List.find?]
  | cons kv rest ih =>
      intro k v
      unfold dinsert
      by_cases h : kv.1 = k
      · simp only [h, beq_self_eq_true, if_true]
        simp [dget_cons]
      · have hb : (kv.1 == k) = false := by simp [h]
        rw [hb]
        simp only [Bool.false_eq_true, if_false]
        rw [dget_cons, hb]
        simp only [Bool.false_eq_true, if_false]
        exact ih k v

theorem dget_dinsert_of_ne {α : Type} :
    ∀ (d : List (String × α)) (k1 k : String) (v : α), k1 ≠ k →
      dget (dinsert d k1 v) k = dget d k := by
  intro d
  induction d with
  | nil =>
      intro k1 k v h
      have hb : (k1 == k) = false := by simp [h]
      simp [dinsert, dget, List.find?, hb]
  | cons kv rest ih =>
      intro k1 k v h
      unfold dinsert
      by_cases h1 : kv.1 = k1
      · have hb : (kv.1 == k1) = true := by simp [h1]
        rw [hb]
        simp only [if_true]
        have hk : (k1 == k) = false := by simp [h]
        rw [dget_cons, dget_cons]
        simp only [hk]
        have : (kv.1 == k) = false := by simp [h1, h]
        simp [this]
      · have hb : (kv.1 == k1) = false := by simp [h1]
        rw [hb]
        simp only [Bool.false_eq_true, if_false]
        rw [dget_cons, dget_cons, ih k1 k v h]

theorem dget_foldl_dinsert_of_not_mem {α β : Type} (key : α → String)
    (val : α → β) :
    ∀ (l : List α) (d : List (String × β)) (k : String),
      (∀ a ∈ l, key a ≠ k) →
      dget (l.foldl (fun m a => dinsert m (key a) (val a)) d) k = dget d k := by
  intro l
  induction l with
  | nil => intro d k _; rfl
  | cons a rest ih =>
      intro d k h
      simp only [List.foldl_cons]
      rw [ih _ k (fun b hb => h b (by simp [hb]))]
      exact dget_dinsert_of_ne d (key a) k (val a) (h a (by simp))

theorem dget_foldl_dinsert_mem {α β : Type} (key : α → String) (val : α → β) :
    ∀ (l : List α) (d : List (String × β)) (a : α), a ∈ l →
      (l.map key).Nodup →
      dget (l.foldl (fun m b => dinsert m (key b) (val b)) d) (key a)
        = some (val a) := by
  intro l
  induction l with
  | nil => intro d a ha _; cases ha
  | cons b rest ih =>
      intro d a ha hnd
      simp only [List.map_cons, List.nodup_cons] at hnd
      simp only [List.foldl_cons]
      rcases List.mem_cons.mp ha with h | h
      · subst h
        rw [dget_foldl_dinsert_of_not_mem]
        · exact dget_dinsert_self d (key a) (val a)
        · intro c hc hEq
          exact hnd.1 (hEq ▸ List.mem_map_of_mem key hc)
      · exact ih _ a h hnd.2

theorem foldl_dinsert_eq_append {α β : Type} (key : α → String)
    (val : α → β) :
    ∀ (l : List α) (acc : List (String × β)),
      (∀ a ∈ l, dmem acc (key a) = false) → (l.map key).Nodup →
      l.foldl (fun d a => dinsert d (key a) (val a)) acc
        = acc ++ l.map (fun a => (key a, val a)) := by
  intro l
  induction l with
  | nil => intro acc _ _; simp
  | cons a rest ih =>
      intro acc hmem hnd
      simp only [List.map_cons, List.nodup_cons] at hnd
      have h1 : dmem acc (key a) = false := hmem a (by simp)
      simp only [List.foldl_cons]
      rw [dinsert_of_not_mem acc (key a) (val a) h1, ih]
      · simp
      · intro b hb
        have hbm : dmem acc (key b) = false := hmem b (by simp [hb])
        rw [dmem_append, hbm]
        have hne : (key a == key b) = false := by
          have : key a ≠ key b := fun h => hnd.1 (h ▸ List.mem_map_of_mem key hb)
          simp [this]
        simp [dmem, hne]
      · exact hnd.2

theorem dvalues_map_pair {α : Type} (key : α → String) :
    ∀ l : List α, dvalues (l.map (fun a => (key a, a))) = l := by
  intro l
  induction l with
  | nil => rfl
  | cons a rest ih =>
      unfold dvalues at ih ⊢
      simp only [List.map_cons]
      rw [ih]

theorem dvalues_map_of_cons {α : Type} (name : α → String) :
    ∀ d : List (String × α), (∀ kv ∈ d, name kv.2 = kv.1) →
      (dvalues d).map name = dkeys d := by
  intro d
  induction d with
  | nil => intro _; rfl
  | cons kv rest ih =>
      intro h
      unfold dvalues dkeys
      simp only [List.map_cons, List.map_map]
      have h1 : name kv.2 = kv.1 := h kv (by simp)
      have h2 := ih (fun b hb => h b (by simp [hb]))
      unfold dvalues dkeys at h2
      rw [List.map_map] at h2
      rw [h1, h2]

theorem dmem_of_mem_dvalues {α : Type} (name : α → String)
    (d : List (String × α)) (hcons : ∀ kv ∈ d, name kv.2 = kv.1)
    (a : α) (ha : a ∈ dvalues d) : dmem d (name a) = true := by
  unfold dvalues at ha
  rcases List.mem_map.mp ha with ⟨kv, hkv, hv⟩
  unfold dmem
  rw [List.any_eq_true]
  refine ⟨kv, hkv, ?_⟩
  have hn : name a = kv.1 := by rw [← hv]; exact hcons kv hkv
  simp [hn]

/-! ### Behaviour lemmas for the fan-out prober -/

/-- The reply `_safe_ping_authority` produces for a given raw probe result:
the gateway JSON when it reports success, a per-authority failure record
otherwise. -/
def maSafeReply (pr : HttpResult PyDict) (name : String) (now : Nat) :
    PyDict :=
  match MeshAuthorityClient.ping_outcome pr with
  | .ok r => r
  | .error e => failDict name now e.msg

theorem safe_ping_of_mem (st : MAState) (name : String) (now : Nat)
    (gw : DiscoveryResponse) (probe : PyDict → HttpResult PyDict)
    (hstart : st.http_client = true)
    (hmem : dmem st.authorities name = true) :
    MeshAuthorityClient.safe_ping_authority st name now gw probe
      = (maSafeReply (probe [(("timestamp"), PyValue.int (Int.ofNat now))])
           name now, st, 1) := by
  unfold MeshAuthorityClient.safe_ping_authority
  unfold MeshAuthorityClient.ping_mesh_authority
  rw [hstart, hmem]
  simp only [Bool.true_eq_false, if_false]
  unfold maSafeReply
  cases hpo : MeshAuthorityClient.ping_outcome
      (probe [(("timestamp"), PyValue.int (Int.ofNat now))]) with
  | ok r => simp [hpo]
  | error e => simp [hpo]

theorem ping_collect_of_mem (st : MAState) (now : Nat)
    (gw : DiscoveryResponse) (probe : String → PyDict → HttpResult PyDict)
    (hstart : st.http_client = true) :
    ∀ (auths : List AuthorityInfo) (acc : List (String × PyDict)) (k : Nat),
      (∀ a ∈ auths, dmem st.authorities a.name = true) →
      MeshAuthorityClient.ping_collect now gw probe auths (acc, st, k)
        = (auths.foldl
             (fun d a => dinsert d a.name
               (maSafeReply
                 (probe a.name [(("timestamp"), PyValue.int (Int.ofNat now))])
                 a.name now))
             acc,
           st, k + auths.length) := by
  intro auths
  induction auths with
  | nil => intro acc k _; simp [MeshAuthorityClient.ping_collect]
  | cons a rest ih =>
      intro acc k h
      unfold MeshAuthorityClient.ping_collect
      rw [safe_ping_of_mem st a.name now gw (probe a.name) hstart
        (h a (by simp))]
      simp only [List.foldl_cons]
      rw [ih _ _ (fun b hb => h b (by simp [hb]))]
      simp only [List.length_cons]
      have harith : k + 1 + rest.length = k + (rest.length + 1) := by omega
      rw [harith]

theorem gather_pings_started (st : MCState) (now : Nat)
    (probe : String → PyDict → HttpResult PyDict)
    (hstart : st.http = true) :
    ∀ auths : List MCAuth,
      MeshClient.gather_pings st now probe auths
        = (.ok (auths.map (fun a =>
             (a.name, MeshClient.ping_reply
               (probe a.name [(("timestamp"), PyValue.int (Int.ofNat now))])))),
           auths.length) := by
  intro auths
  induction auths with
  | nil => rfl
  | cons a rest ih =>
      unfold MeshClient.gather_pings MeshClient.ping
      rw [hstart]
      simp [ih, Nat.add_comm]

/-! ### Concrete example values used by witnesses and counterexamples -/

/-- A sample cached authority record. -/
def exAuth1 : AuthorityInfo :=
  { name := ("auth1")
    address := { node_id := ("auth1"), ip_address := ("10.0.0.11"),
                 port := 8001, node_type := ("authority") }
    position := { x := 45, y := 40, z := 0 }
    status := .online
    shards := []
    committee_members := [("auth2")]
    performance_metrics := [] }

/-- A second sample cached authority record. -/
def exAuth2 : AuthorityInfo :=
  { name := ("auth2")
    address := { node_id := ("auth2"), ip_address := ("10.0.0.12"),
                 port := 8002, node_type := ("authority") }
    position := { x := 70, y := 40, z := 0 }
    status := .syncing
    shards := []
    committee_members := [("auth1")]
    performance_metrics := [] }

/-- A started `MeshAuthorityClient` holding `exAuth1` and `exAuth2`. -/
def exStMA : MAState :=
  { mesh_bridge_url := ("http://10.0.0.254:8080")
    authorities := [(("auth1"), exAuth1), (("auth2"), exAuth2)]
    discovery_file := Option.none
    running := true
    http_client := true
    last_discovery_time := 0
    discovery_cache_duration := 30 }

/-- A sample `MeshClient` cached authority dict. -/
def exMCA1 : MCAuth :=
  { name := ("auth1"), ip := ("10.0.0.11"), port := 8001,
    status := ("online"), position := { x := 45, y := 40, z := 0 },
    committee_members := [("auth2")] }

/-- A second sample `MeshClient` cached authority dict. -/
def exMCA2 : MCAuth :=
  { name := ("auth2"), ip := ("10.0.0.12"), port := 8002,
    status := ("online"), position := { x := 70, y := 40, z := 0 },
    committee_members := [("auth1")] }

/-- A started `MeshClient` with a warm cache. -/
def exStMC : MCState :=
  { gateway_url := ("http://10.0.0.254:8080")
    http := true
    cache := [(("auth1"), exMCA1), (("auth2"), exMCA2)] }

/-- A started `MeshClient` with an empty cache. -/
def exStMCempty : MCState :=
  { gateway_url := ("http://10.0.0.254:8080"), http := true, cache := [] }

/-- A `MeshClient` authority dict absent from `exStMC`'s cache. -/
def exMCA3 : MCAuth :=
  { name := ("auth3"), ip := ("10.0.0.13"), port := 8003,
    status := ("online"), position := { x := 95, y := 40, z := 0 },
    committee_members := [("auth1")] }

/-! ### Claims -/

/-- Claim C1: for every client whose authority map is non-empty, if a
discovery refresh attempt fails (the gateway call raises), the
get-authorities operation still returns the previously held (stale)
authority records rather than surfacing an error to the caller.  For
`MeshAuthorityClient.get_authorities` the refresh failure is swallowed and
the stale `self.authorities` values are returned unchanged; for
`MeshClient.discover` a non-empty cache is served without attempting the
gateway call at all. -/
theorem C1_stale_served_on_refresh_failure
    (st : MAState) (now : Nat) (m : String)
    (mc : MCState) (mcgw : HttpResult (List MCAuth))
    (_h1 : st.authorities ≠ [])
    (h2 : st.http_client = true)
    (h3 : st.discovery_cache_duration < now - st.last_discovery_time)
    (h4 : mc.cache ≠ []) :
    MeshAuthorityClient.get_authorities st now (.httpError m)
      = (.ok (dvalues st.authorities), st, 1)
    ∧ MeshClient.discover mc false mcgw
      = (.ok (dvalues mc.cache), mc, 0) := by
  constructor
  · unfold MeshAuthorityClient.get_authorities
    rw [if_pos h3]
    unfold MeshAuthorityClient.discover_mesh_authorities
    rw [h2]
    simp
  · unfold MeshClient.discover
    have he : mc.cache.isEmpty = false := by
      cases hc : mc.cache with
      | nil => exact absurd hc h4
      | cons a l => rfl
    rw [he]
    simp

/-- Witness for C1 at a concrete stale-cache state and failing gateway. -/
theorem C1_witness :
    MeshAuthorityClient.get_authorities exStMA 100 (.httpError ("boom"))
      = (.ok (dvalues exStMA.authorities), exStMA, 1)
    ∧ MeshClient.discover exStMC false (.err ("boom"))
      = (.ok (dvalues exStMC.cache), exStMC, 0) :=
  C1_stale_served_on_refresh_failure exStMA 100 ("boom") exStMC
    (.err ("boom")) (by decide) rfl (by decide) (by decide)

/-- Claim C2: when a cached snapshot exists and its age is below the
discovery TTL, a non-forced get-authorities call returns the cached
records and performs zero gateway calls (for either client). -/
theorem C2_fresh_cache_serves_without_io
    (st : MAState) (now : Nat) (gw : DiscoveryResponse)
    (mc : MCState) (mcgw : HttpResult (List MCAuth))
    (_h1 : st.authorities ≠ [])
    (h2 : now - st.last_discovery_time < st.discovery_cache_duration)
    (h3 : mc.cache ≠ []) :
    MeshAuthorityClient.get_authorities st now gw
      = (.ok (dvalues st.authorities), st, 0)
    ∧ MeshClient.discover mc false mcgw
      = (.ok (dvalues mc.cache), mc, 0) := by
  constructor
  · unfold MeshAuthorityClient.get_authorities
    rw [if_neg (by omega)]
  · unfold MeshClient.discover
    have he : mc.cache.isEmpty = false := by
      cases hc : mc.cache with
      | nil => exact absurd hc h3
      | cons a l => rfl
    rw [he]
    simp

/-- Witness for C2 at a concrete fresh-cache state. -/
theorem C2_witness :
    MeshAuthorityClient.get_authorities exStMA 10 (.httpError ("boom"))
      = (.ok (dvalues exStMA.authorities), exStMA, 0)
    ∧ MeshClient.discover exStMC false (.err ("boom"))
      = (.ok (dvalues exStMC.cache), exStMC, 0) :=
  C2_fresh_cache_serves_without_io exStMA 10 (.httpError ("boom")) exStMC
    (.err ("boom")) (by decide) (by decide) (by decide)

/-- A fallback-file record whose serialized status is `online`. -/
def exDiskOnline : DiskAuth :=
  { name := ("auth1"), ip := ("10.0.0.11"), port := 8001,
    position := { x := 45, y := 40, z := 0 }, status := ("online"),
    committee_members := [("auth2")], timestamp := 5 }

/-- Claim C3 counterexample: loading a persisted record whose serialized
status is `online` yields status `offline`, not `unknown` — the claim
that every restored record's status equals `unknown` is false on the code
(`_load_discovery_file` constructs `AuthorityStatus("offline")`). -/
theorem C3_counterexample :
    exDiskOnline.status = ("online")
    ∧ (loadAuth exDiskOnline).status = AuthorityStatus.offline
    ∧ (loadAuth exDiskOnline).status ≠ AuthorityStatus.unknown := by
  decide

/-- Claim C3 as amended: for every persisted fallback snapshot, loading it
back produces authority records whose status field equals `offline`
(not `unknown`), regardless of the status value that was serialized to
disk. -/
theorem C3_amended_load_forces_offline
    (st : MAState) (data : List DiskAuth)
    (h : st.discovery_file = some data) :
    (MeshAuthorityClient.load_discovery_file st).1 = some (data.map loadAuth)
    ∧ ∀ a ∈ data.map loadAuth, a.status = AuthorityStatus.offline := by
  constructor
  · unfold MeshAuthorityClient.load_discovery_file
    rw [h]
  · intro a ha
    rcases List.mem_map.mp ha with ⟨d, _, hd⟩
    rw [← hd]
    rfl

/-- Witness for the amended C3 at a concrete persisted snapshot. -/
theorem C3_witness :
    (MeshAuthorityClient.load_discovery_file
        { exStMA with discovery_file := some [exDiskOnline] }).1
      = some ([exDiskOnline].map loadAuth)
    ∧ ∀ a ∈ [exDiskOnline].map loadAuth,
        a.status = AuthorityStatus.offline :=
  C3_amended_load_forces_offline
    { exStMA with discovery_file := some [exDiskOnline] } [exDiskOnline] rfl

/-- The fields the fallback round-trip must reproduce: name, address
(IP and port), position, and the committee-membership set. -/
def roundProj (a : AuthorityInfo) :
    String × String × Nat × Position × Finset String :=
  (a.name, a.address.ip_address, a.address.port, a.position,
   a.committee_members.toFinset)

theorem dedup_toFinset_eq {α : Type} [DecidableEq α] (l : List α) :
    l.dedup.toFinset = l.toFinset := by
  ext x
  simp [List.mem_toFinset, List.mem_dedup]

/-- Per-record content of the fallback round-trip: deserializing a
serialized authority preserves name, IP, port, position and the
committee-membership set. -/
theorem roundProj_load_save (now : Nat) (a : AuthorityInfo) :
    roundProj (loadAuth (saveAuth now a)) = roundProj a := by
  simp [roundProj, loadAuth, saveAuth, dedup_toFinset_eq]

/-- Claim C4: saving any list of authority records to the fallback store
and loading it back reproduces identical name, address (IP and port),
position, and committee-membership sets (status and heartbeat are not
required to round-trip, and indeed do not). -/
theorem C4_fallback_roundtrip (st : MAState) (auths : List AuthorityInfo)
    (now : Nat) :
    (MeshAuthorityClient.load_discovery_file
        (MeshAuthorityClient.save_discovery_file st auths now)).1.map
        (fun l => l.map roundProj)
      = some (auths.map roundProj) := by
  unfold MeshAuthorityClient.save_discovery_file
  unfold MeshAuthorityClient.load_discovery_file
  simp only [Option.map_some', List.map_map]
  congr 1
  induction auths with
  | nil => rfl
  | cons a rest ih =>
      simp only [List.map_cons] at ih ⊢
      rw [ih]
      simp only [List.cons.injEq, and_true]
      exact roundProj_load_save now a

/-- Claim C9 (spec-modelled: the enhanced client's circuit breaker is not
in `src/`): while the breaker is in the open state (and its recovery
timeout has not yet elapsed, which per the spec is what keeps it in
`open`), every call through the gateway client fails immediately with
`CircuitOpenError`, performs zero network calls, and leaves the breaker
unchanged. -/
theorem C9_open_breaker_fails_fast {α : Type} (cfg : CircuitBreakerConfig)
    (cb : CircuitBreaker) (now : Nat) (call : HttpResult α)
    (h1 : cb.state = .opened)
    (h2 : now < cb.opened_at + cfg.recovery_timeout) :
    breakerCall cfg cb now call = (.circuitOpen, cb, 0) := by
  unfold breakerCall
  rw [h1]
  simp [if_pos h2]

/-- Witness for C9 at a concrete open breaker. -/
theorem C9_witness :
    breakerCall { failure_threshold := 3, recovery_timeout := 5 }
      { state := .opened, failure_count := 3, opened_at := 10,
        trial_in_flight := false }
      12 (HttpResult.err ("connect timeout") : HttpResult PyDict)
    = (.circuitOpen,
       { state := .opened, failure_count := 3, opened_at := 10,
         trial_in_flight := false }, 0) :=
  C9_open_breaker_fails_fast _ _ 12 _ rfl (by decide)

/-- Claim C10: every operation that would reach the gateway — discovery,
transfer, confirmation, ping, health — of a constructed-but-not-started
client raises the client's error type reporting that the client is not
started, performs zero network calls, and leaves the client's cached
state unchanged (the state-returning operations return the constructed
state itself; the others never touch it). -/
theorem C10_not_started_guards
    (url : String) (file : Option (List DiskAuth)) (name : String)
    (body : PyDict) (now : Nat) (force : Bool)
    (gw : DiscoveryResponse) (mcgw : HttpResult (List MCAuth))
    (post : PyDict → HttpResult PyDict) (resp : HttpResult PyDict) :
    MeshClient.discover (MCState.mk0 url) force mcgw
      = (.error (.clientError MeshClient.notStartedMsg), MCState.mk0 url, 0)
    ∧ MeshClient.send_transfer (MCState.mk0 url) body now post
      = (.error (.clientError MeshClient.notStartedMsg), 0)
    ∧ MeshClient.send_transfer_to_authority (MCState.mk0 url) name body now post
      = (.error (.clientError MeshClient.notStartedMsg), 0)
    ∧ MeshClient.send_confirmation (MCState.mk0 url) name body now post
      = (.error (.clientError MeshClient.notStartedMsg), 0)
    ∧ MeshClient.ping (MCState.mk0 url) name now post
      = (.error (.clientError MeshClient.notStartedMsg), 0)
    ∧ MeshClient.get_health (MCState.mk0 url) resp
      = (.error (.clientError MeshClient.notStartedMsg), 0)
    ∧ MeshAuthorityClient.discover_mesh_authorities (MAState.mk0 url file) now gw
      = (.error (.discovery ("Client not started")), MAState.mk0 url file, 0)
    ∧ MeshAuthorityClient.send_mesh_transfer (MAState.mk0 url file) name body now gw post
      = (.error (.communication ("Client not started")), MAState.mk0 url file, 0)
    ∧ MeshAuthorityClient.ping_mesh_authority (MAState.mk0 url file) name now gw post
      = (.error (.communication ("Client not started")), MAState.mk0 url file, 0)
    ∧ MeshAuthorityClient.get_mesh_gateway_status (MAState.mk0 url file) resp
      = (.error (.gateway ("Client not started")), 0) := by
  exact ⟨rfl, rfl, rfl, rfl, rfl, rfl, rfl, rfl, rfl, rfl⟩

/-- A well-formed raw authority entry, parsing to `exAuthNew`. -/
def exRawNew : RawAuth :=
  { name := some ("new1"), ip := some ("10.0.0.13"), port := some 8003,
    position := some { x := some 95, y := some 40, z := some 0 },
    status := some ("online"), committee_members := some [("auth1")] }

/-- The parsed form of `exRawNew`. -/
def exAuthNew : AuthorityInfo :=
  { name := ("new1")
    address := { node_id := ("new1"), ip_address := ("10.0.0.13"),
                 port := 8003, node_type := ("authority") }
    position := { x := 95, y := 40, z := 0 }
    status := .online
    shards := []
    committee_members := [("auth1")]
    performance_metrics := [] }

/-- Claim C5: every successful discovery refresh writes the newly obtained
authority snapshot to the fallback store before the refresh returns its
result: on the success path the returned state already carries the
serialized new snapshot in its discovery file, and the returned result is
that snapshot. -/
theorem C5_success_persists_snapshot
    (st : MAState) (now : Nat) (raws : List RawAuth)
    (h : st.http_client = true) :
    (MeshAuthorityClient.discover_mesh_authorities st now (.ok raws)).1
      = .ok (raws.filterMap parse_authority)
    ∧ (MeshAuthorityClient.discover_mesh_authorities st now
        (.ok raws)).2.1.discovery_file
      = some ((raws.filterMap parse_authority).map (saveAuth now)) := by
  unfold MeshAuthorityClient.discover_mesh_authorities
  unfold MeshAuthorityClient.save_discovery_file
  rw [h]
  simp

/-- Witness for C5 at a concrete successful refresh. -/
theorem C5_witness :
    (MeshAuthorityClient.discover_mesh_authorities exStMA 100
        (.ok [exRawNew])).1
      = .ok ([exRawNew].filterMap parse_authority)
    ∧ (MeshAuthorityClient.discover_mesh_authorities exStMA 100
        (.ok [exRawNew])).2.1.discovery_file
      = some (([exRawNew].filterMap parse_authority).map (saveAuth 100)) :=
  C5_success_persists_snapshot exStMA 100 [exRawNew] rfl

/-- Claim C6 counterexample: from a state caching `auth1` and `auth2`, a
refresh whose returned snapshot S contains only `new1` leaves `auth1`
(absent from S) still present in `MeshAuthorityClient`'s cache — the
cache does not contain exactly the records of S, so the claim that
records absent from S are removed is false on the code. -/
theorem C6_counterexample :
    (MeshAuthorityClient.discover_mesh_authorities exStMA 100
        (.ok [exRawNew])).1 = .ok [exAuthNew]
    ∧ dget (MeshAuthorityClient.discover_mesh_authorities exStMA 100
        (.ok [exRawNew])).2.1.authorities ("auth1") = some exAuth1 :=
  ⟨rfl, rfl⟩

/-- Claim C6 as amended: a discovery refresh stores records wholesale,
keyed uniquely by name, never field-merged — whenever
`MeshClient.discover` refreshes (its cache is empty or a refresh is
forced), the cache it returns with is rebuilt from scratch to exactly the
snapshot S, discarding every previously cached record — but in
`MeshAuthorityClient.discover_mesh_authorities` previously cached records
whose names are absent from S are retained (not removed), while every
record of S replaces any previous record of the same name wholesale. -/
theorem C6_amended_refresh_replacement
    (st : MAState) (now : Nat) (raws : List RawAuth)
    (mc : MCState) (force : Bool) (auths : List MCAuth)
    (h1 : st.http_client = true)
    (hnd : ((raws.filterMap parse_authority).map AuthorityInfo.name).Nodup)
    (h2 : mc.http = true) (h3 : mc.cache = [] ∨ force = true)
    (hnd2 : (auths.map MCAuth.name).Nodup) :
    (∀ a ∈ raws.filterMap parse_authority,
        dget (MeshAuthorityClient.discover_mesh_authorities st now
          (.ok raws)).2.1.authorities a.name = some a)
    ∧ (∀ k, (∀ a ∈ raws.filterMap parse_authority, a.name ≠ k) →
        dget (MeshAuthorityClient.discover_mesh_authorities st now
          (.ok raws)).2.1.authorities k = dget st.authorities k)
    ∧ MeshClient.discover mc force (.ok auths)
      = (.ok auths, { mc with cache := auths.map (fun a => (a.name, a)) },
         1) := by
  have hst : (MeshAuthorityClient.discover_mesh_authorities st now
      (.ok raws)).2.1.authorities
      = (raws.filterMap parse_authority).foldl
          (fun m a => dinsert m a.name a) st.authorities := by
    unfold MeshAuthorityClient.discover_mesh_authorities
    unfold MeshAuthorityClient.save_discovery_file
    rw [h1]
    simp
  refine ⟨?_, ?_, ?_⟩
  · intro a ha
    rw [hst]
    exact dget_foldl_dinsert_mem AuthorityInfo.name (fun b => b) _ _ a ha hnd
  · intro k hk
    rw [hst]
    exact dget_foldl_dinsert_of_not_mem AuthorityInfo.name (fun b => b) _ _ k hk
  · unfold MeshClient.discover
    have hguard : (!mc.cache.isEmpty && !force) = false := by
      rcases h3 with h3 | h3
      · rw [h3]; rfl
      · rw [h3]; simp
    rw [hguard, h2]
    simp only [Bool.not_true, Bool.false_eq_true, if_false]
    rw [foldl_dinsert_eq_append MCAuth.name (fun a => a) auths []
      (fun a _ => rfl) hnd2]
    simp only [List.nil_append, dvalues_map_pair MCAuth.name auths]

/-- Witness for the amended C6: the new record is stored under its name in
both clients, and a forced `MeshClient` refresh over the warm two-entry
cache of `exStMC` rebuilds it to exactly the one-record snapshot,
discarding `auth1` and `auth2`. -/
theorem C6_witness :
    dget (MeshAuthorityClient.discover_mesh_authorities exStMA 100
        (.ok [exRawNew])).2.1.authorities ("new1") = some exAuthNew
    ∧ MeshClient.discover exStMC true (.ok [exMCA3])
      = (.ok [exMCA3],
         { exStMC with cache := [exMCA3].map (fun a => (a.name, a)) },
         1) := by
  refine ⟨?_, ?_⟩
  · exact (C6_amended_refresh_replacement exStMA 100 [exRawNew] exStMC
      true [exMCA3] rfl (by decide) rfl (Or.inr rfl) (by decide)).1
      exAuthNew (by decide)
  · exact (C6_amended_refresh_replacement exStMA 100 [exRawNew] exStMC
      true [exMCA3] rfl (by decide) rfl (Or.inr rfl) (by decide)).2.2

/-- Claim C7: for every known authority set, the ping-all fan-out returns
one result entry per authority (keyed by name, in order), and a failure of
any individual probe is recorded as a per-authority failure result
(`maSafeReply` / `MeshClient.ping_reply` turn a raised probe error into a
`success = False` record) rather than raising an exception that aborts the
other probes — both fan-outs are total and return one entry per known
authority. -/
theorem C7_fanout_per_authority_results
    (st : MAState) (now : Nat) (gw : DiscoveryResponse)
    (probe : String → PyDict → HttpResult PyDict)
    (mc : MCState) (mcgw : HttpResult (List MCAuth))
    (probe2 : String → PyDict → HttpResult PyDict)
    (h1 : st.http_client = true)
    (h2 : now - st.last_discovery_time ≤ st.discovery_cache_duration)
    (h3 : ∀ kv ∈ st.authorities, kv.2.name = kv.1)
    (h4 : (dkeys st.authorities).Nodup)
    (h5 : mc.http = true) (h6 : mc.cache ≠ [])
    (h7 : ∀ kv ∈ mc.cache, kv.2.name = kv.1)
    (h8 : (dkeys mc.cache).Nodup) :
    MeshAuthorityClient.ping_all_authorities st now gw probe
      = ((dvalues st.authorities).map (fun a =>
           (a.name,
            maSafeReply
              (probe a.name [(("timestamp"), PyValue.int (Int.ofNat now))])
              a.name now)),
         st, st.authorities.length)
    ∧ MeshClient.ping_all mc now mcgw probe2
      = (.ok ((dvalues mc.cache).map (fun a =>
           (a.name,
            MeshClient.ping_reply
              (probe2 a.name [(("timestamp"), PyValue.int (Int.ofNat now))])))),
         mc, mc.cache.length) := by
  constructor
  · have hget : MeshAuthorityClient.get_authorities st now gw
        = (.ok (dvalues st.authorities), st, 0) := by
      unfold MeshAuthorityClient.get_authorities
      rw [if_neg (by omega)]
    unfold MeshAuthorityClient.ping_all_authorities
    rw [hget]
    rw [ping_collect_of_mem st now gw probe h1 (dvalues st.authorities) [] 0
      (fun a ha => dmem_of_mem_dvalues AuthorityInfo.name st.authorities h3 a ha)]
    rw [foldl_dinsert_eq_append AuthorityInfo.name
      (fun a => maSafeReply
        (probe a.name [(("timestamp"), PyValue.int (Int.ofNat now))])
        a.name now)
      (dvalues st.authorities) [] (fun a _ => rfl)
      (by rw [dvalues_map_of_cons AuthorityInfo.name st.authorities h3]; exact h4)]
    simp [dvalues]
  · have hdisc : MeshClient.discover mc false mcgw
        = (.ok (dvalues mc.cache), mc, 0) := by
      unfold MeshClient.discover
      have he : mc.cache.isEmpty = false := by
        cases hc : mc.cache with
        | nil => exact absurd hc h6
        | cons a l => rfl
      rw [he]
      simp
    unfold MeshClient.ping_all
    rw [hdisc]
    simp only []
    rw [gather_pings_started mc now probe2 h5 (dvalues mc.cache)]
    simp only []
    rw [foldl_dinsert_eq_append Prod.fst Prod.snd
      ((dvalues mc.cache).map (fun a =>
        (a.name, MeshClient.ping_reply
          (probe2 a.name [(("timestamp"), PyValue.int (Int.ofNat now))]))))
      [] (fun a _ => rfl)
      (by
        rw [List.map_map]
        have : ((fun kv => kv.1) ∘ fun a =>
            ((a : MCAuth).name, MeshClient.ping_reply
              (probe2 a.name [(("timestamp"), PyValue.int (Int.ofNat now))])))
            = fun a => MCAuth.name a := rfl
        rw [this]
        rw [show (fun a => MCAuth.name a) = MCAuth.name from rfl]
        rw [dvalues_map_of_cons MCAuth.name mc.cache h7]
        exact h8)]
    simp [dvalues]

/-- A probe oracle failing on `auth2` only. -/
def exProbe (name : String) (_payload : PyDict) : HttpResult PyDict :=
  if name == ("auth2") then .err ("connect timeout")
  else .ok [(("success"), PyValue.bool true), (("latency_ms"), PyValue.int 7)]

/-- Witness for C7 at a concrete two-authority state whose second probe
fails. -/
theorem C7_witness :
    MeshAuthorityClient.ping_all_authorities exStMA 10 (.httpError ("x")) exProbe
      = ((dvalues exStMA.authorities).map (fun a =>
           (a.name,
            maSafeReply
              (exProbe a.name [(("timestamp"), PyValue.int (Int.ofNat 10))])
              a.name 10)),
         exStMA, exStMA.authorities.length)
    ∧ MeshClient.ping_all exStMC 10 (.err ("x")) exProbe
      = (.ok ((dvalues exStMC.cache).map (fun a =>
           (a.name,
            MeshClient.ping_reply
              (exProbe a.name [(("timestamp"), PyValue.int (Int.ofNat 10))])))),
         exStMC, exStMC.cache.length) :=
  C7_fanout_per_authority_results exStMA 10 (.httpError ("x")) exProbe
    exStMC (.err ("x")) exProbe rfl (by decide) (by decide) (by decide)
    rfl (by decide) (by decide) (by decide)

/-- The exact condition under which the shared transfer-validation prefix
of `MeshClient.send_transfer` raises a `MeshClientError`: a required field
is missing, or `int(amount)` raises or yields a non-positive value, or
`token_address` is falsy or is a string not starting with `0x`. -/
def transferValidationFails (body : PyDict) : Bool :=
  ((requiredFields.find? (fun f => (dget body f).isNone)).isSome)
  || (match pyToInt ((dget body ("amount")).getD .none) with
      | .error _ => true
      | .ok a => decide (a ≤ 0))
  || (let tok := (dget body ("token_address")).getD .none
      (!pyTruthy tok)
      || (match tok with | .str s => !pyStartsWith s ("0x") | _ => false))

/-- `true` exactly when the operation raised a `MeshClientError`. -/
def raisesClientError {β : Type} : Except MCRaise β → Bool
  | .error (.clientError _) => true
  | .error .attributeError => false
  | .ok _ => false

theorem validation_error_of_fails (body : PyDict)
    (h : transferValidationFails body = true) :
    raisesClientError (MeshClient.validate_transfer_body body) = true := by
  unfold transferValidationFails at h
  unfold MeshClient.validate_transfer_body
  cases hf : requiredFields.find? (fun f => (dget body f).isNone) with
  | some f => rfl
  | none =>
      rw [hf] at h
      simp only [Option.isSome_none, Bool.false_or] at h
      cases hi : pyToInt ((dget body ("amount")).getD .none) with
      | error e => rfl
      | ok a =>
          rw [hi] at h
          simp only [] at h
          simp only []
          by_cases ha : a ≤ 0
          · rw [if_pos ha]; rfl
          · rw [if_neg ha]
            rw [decide_eq_false ha] at h
            simp only [Bool.false_or] at h
            cases htr : pyTruthy ((dget body ("token_address")).getD .none) with
            | false => rfl
            | true =>
                rw [htr] at h
                simp only [Bool.not_true, Bool.false_or] at h
                simp only [Bool.not_true, Bool.false_eq_true, if_false]
                cases htok : (dget body ("token_address")).getD .none with
                | str s =>
                    rw [htok] at h
                    simp only [] at h
                    simp only []
                    rw [h]
                    rfl
                | int n => rw [htok] at h; simp at h
                | float q => rw [htok] at h; simp at h
                | bool b => rw [htok] at h; simp at h
                | none => rw [htok] at h; simp at h

/-- A started `MeshClient` used by the transfer-validation claims. -/
def exStMCstarted : MCState :=
  { gateway_url := ("http://10.0.0.254:8080"), http := true, cache := [] }

/-- A successful gateway transfer response. -/
def exOkResp : PyDict := [(("success"), PyValue.bool true)]

/-- The rational 7.9 = 79/10. -/
def exAmount79 : Rat := Rat.mk' 79 10 (by norm_num) (by norm_num)

/-- A transfer body whose amount is 7.9 — positive but not an integer. -/
def exBody79 : PyDict :=
  [ (("sender"), PyValue.str ("alice"))
  , (("recipient"), PyValue.str ("bob"))
  , (("token_address"), PyValue.str ("0xA1"))
  , (("amount"), PyValue.float exAmount79) ]

/-- Claim C8 counterexample: a transfer body whose `amount` is 7.9 — not a
positive integer — passes validation (Python's `int(7.9)` truncates to 7)
and `send_transfer` proceeds to the network call instead of raising a
validation error. -/
theorem C8_counterexample :
    MeshClient.send_transfer exStMCstarted exBody79 0 (fun _ => .ok exOkResp)
      = (.ok exOkResp, 1)
    ∧ exAmount79.den ≠ 1 :=
  ⟨rfl, by decide⟩

/-- Claim C8 as amended: for every transfer request body missing one of the
required fields, or whose amount fails Python `int(...)` conversion or
converts to a non-positive value, or whose token_address is falsy or is a
string not starting with `0x`, `send_transfer` raises a `MeshClientError`
immediately, with zero network calls (hence before any network I/O and
without any retry).  (A value such as 7.9 whose truncation is a positive
integer passes validation.) -/
theorem C8_amended_validation_before_io
    (st : MCState) (body : PyDict) (now : Nat)
    (post : PyDict → HttpResult PyDict)
    (h1 : st.http = true)
    (h2 : transferValidationFails body = true) :
    raisesClientError (MeshClient.send_transfer st body now post).1 = true
    ∧ (MeshClient.send_transfer st body now post).2 = 0 := by
  unfold MeshClient.send_transfer
  rw [h1]
  simp only [Bool.not_true, Bool.false_eq_true, if_false]
  have hv := validation_error_of_fails body h2
  cases hval : MeshClient.validate_transfer_body body with
  | error e =>
      cases e with
      | clientError m => exact ⟨rfl, rfl⟩
      | attributeError => rw [hval] at hv; cases hv
  | ok u => rw [hval] at hv; cases hv

/-- A transfer body with the `sender` field missing. -/
def exBodyMissing : PyDict :=
  [ (("recipient"), PyValue.str ("bob"))
  , (("token_address"), PyValue.str ("0xA1"))
  , (("amount"), PyValue.int 5) ]

/-- Witness for the amended C8 at a body missing its `sender` field. -/
theorem C8_witness :
    raisesClientError (MeshClient.send_transfer exStMCstarted exBodyMissing 0
        (fun _ => .ok exOkResp)).1 = true
    ∧ (MeshClient.send_transfer exStMCstarted exBodyMissing 0
        (fun _ => .ok exOkResp)).2 = 0 :=
  C8_amended_validation_before_io exStMCstarted exBodyMissing 0
    (fun _ => .ok exOkResp) rfl (by decide)

end MeshWeb
